import Mathlib

/-!
Verification development for the Confidential DAO Voting System repository.

The development shallowly embeds the parts of the repository that the
recorded claims talk about:

1. the Solidity contract `FHEMVoting` (base-template/contracts/FHEMVoting.sol):
   its storage, its externally callable state-changing functions and the
   events they emit.  Machine integers are modelled as `Nat` with explicit
   reduction modulo `2 ^ 32` exactly where the source casts to `uint32` or
   performs `euint32` arithmetic.  A reverting call is modelled as
   `Except.error` carrying the revert reason string of the corresponding
   `require`; a successful call returns the updated storage together with
   the list of emitted events.  Reversion discards all writes, which the
   `Except` encoding captures by construction (an `error` result carries no
   state).  The FHEVM ciphertext type `euint32` is represented by the
   plaintext value it encrypts, reduced modulo `2 ^ 32`; `FHE.add` on
   `euint32` is addition modulo `2 ^ 32` on those plaintexts, and
   `FHE.allowThis` / `FHE.allow` only manage decryption permissions and
   never change a stored ciphertext value, so they have no effect on this
   state.  `keccak256(abi.encodePacked(support, nonce, msg.sender))` is
   modelled by an arbitrary function parameter `kc : Bool → Nat → Nat → Nat`:
   every hash-related claim is proved for all such functions.

2. the static example registries and the argument-dispatch logic of the
   CLI script scripts/generate-docs.ts, together with the registry of
   scripts/create-fhevm-example.ts.
-/

/-- Blockchain call context: `msg.sender` (an address, modelled as `Nat`)
and `block.timestamp` (seconds). -/
structure Env where
  msgSender : Nat
  blockTimestamp : Nat

/-- Storage struct `Proposal` of `FHEMVoting`.  The two `euint32` counters
are modelled by the plaintext values they encrypt (always `< 2 ^ 32`). -/
structure Proposal where
  id : Nat
  title : String
  description : String
  creator : Nat
  createdAt : Nat
  votingEnd : Nat
  encryptedYesCount : Nat
  encryptedNoCount : Nat
  executed : Bool
  active : Bool

/-- Storage struct `VoteCommitment` of `FHEMVoting`.  `voteHash` is a
`bytes32` modelled as `Nat`; the value `0` is `bytes32(0)`, the default of
an untouched mapping slot. -/
structure VoteCommitment where
  voteHash : Nat
  revealed : Bool

/-- Events declared by `FHEMVoting`. -/
inductive Event where
  | ProposalCreated (proposalId : Nat) (title : String) (creator : Nat) (votingEnd : Nat)
  | VoteCommitted (proposalId : Nat) (voter : Nat) (voteHash : Nat)
  | VoteRevealed (proposalId : Nat) (voter : Nat) (support : Bool) (weight : Nat)
  | ProposalExecuted (proposalId : Nat) (passed : Bool) (timestamp : Nat)

/-- Full storage of the `FHEMVoting` contract.  Solidity mappings are total
functions whose untouched slots hold the zero value of the element type. -/
structure VotingState where
  proposals : Nat → Proposal
  voteCommitments : Nat → Nat → VoteCommitment
  voterWeight : Nat → Nat
  proposalCount : Nat
  owner : Nat
  votingOpen : Bool

/-- Pointwise update of a one-key mapping. -/
def upd {α : Type} (f : Nat → α) (k : Nat) (v : α) : Nat → α :=
  fun x => if x = k then v else f x

/-- Pointwise update of a two-key mapping. -/
def upd2 {α : Type} (f : Nat → Nat → α) (k1 k2 : Nat) (v : α) : Nat → Nat → α :=
  fun x y => if x = k1 ∧ y = k2 then v else f x y

theorem upd_same {α : Type} (f : Nat → α) (k : Nat) (v : α) : upd f k v k = v := by
  simp [upd]

theorem upd2_same {α : Type} (f : Nat → Nat → α) (k1 k2 : Nat) (v : α) :
    upd2 f k1 k2 v k1 k2 = v := by
  simp [upd2]

/-- Contract constant `VOTING_DURATION = 7 days`, in seconds. -/
def VOTING_DURATION : Nat := 7 * 86400

/-- Solidity literal `1 days`, in seconds. -/
def ONE_DAY : Nat := 86400

/-- Contract constant `MIN_VOTING_POWER = 100`. -/
def MIN_VOTING_POWER : Nat := 100

/-- Modulus of the `uint32` / `euint32` value space. -/
def UINT32_MOD : Nat := 2 ^ 32

/-- Outcome of an external call: revert reason, or updated storage plus
emitted events. -/
def CallResult : Type := Except String (VotingState × List Event)

/-- Boolean test for a reverted call. -/
def isRevert (r : CallResult) : Bool :=
  match r with
  | Except.error _ => true
  | Except.ok _ => false

/-- Storage after a call, with a fallback for the reverted case (a revert
leaves the pre-call storage in place). -/
def resultState (r : CallResult) (fallback : VotingState) : VotingState :=
  match r with
  | Except.ok out => out.1
  | Except.error _ => fallback

/-- Events emitted by a call (a reverted call emits nothing). -/
def resultEvents (r : CallResult) : List Event :=
  match r with
  | Except.ok out => out.2
  | Except.error _ => []

/-- Function `setVoterWeight` (onlyOwner). -/
def setVoterWeight (env : Env) (s : VotingState) (voter weight : Nat) : CallResult :=
  if env.msgSender = s.owner then
    Except.ok ({ s with voterWeight := upd s.voterWeight voter weight }, [])
  else Except.error "Only owner can operate"

/-- Function `setVotingOpen` (onlyOwner). -/
def setVotingOpen (env : Env) (s : VotingState) (opn : Bool) : CallResult :=
  if env.msgSender = s.owner then
    Except.ok ({ s with votingOpen := opn }, [])
  else Except.error "Only owner can operate"

/-- Function `pauseProposal` (onlyOwner): clears the `active` flag of an
existing proposal. -/
def pauseProposal (env : Env) (s : VotingState) (proposalId : Nat) : CallResult :=
  if env.msgSender = s.owner then
    if proposalId ≤ s.proposalCount ∧ 0 < proposalId then
      Except.ok
        ({ s with
            proposals := upd s.proposals proposalId
              ({ s.proposals proposalId with active := false }) }, [])
    else Except.error "Proposal does not exist"
  else Except.error "Only owner can operate"

/-- View `hasUserVoted`: whether a commitment hash is stored. -/
def hasUserVoted (s : VotingState) (proposalId user : Nat) : Bool :=
  (s.voteCommitments proposalId user).voteHash ≠ 0

/-- View `hasUserRevealed`. -/
def hasUserRevealed (s : VotingState) (proposalId user : Nat) : Bool :=
  (s.voteCommitments proposalId user).revealed

/-- View `generateVoteHash`: `keccak256(abi.encodePacked(support, nonce,
msg.sender))`, with the hash function abstracted as `kc`. -/
def generateVoteHash (kc : Bool → Nat → Nat → Nat) (env : Env)
    (support : Bool) (nonce : Nat) : Nat :=
  kc support nonce env.msgSender

/-- Function `createProposal`.  Guards in source order: the `votingIsOpen`
modifier, then the `MIN_VOTING_POWER` check.  The new proposal reuses the
storage slot `proposals[proposalCount + 1]`; fields the source does not
assign (only `executed`) keep the slot's previous value. -/
def createProposal (env : Env) (s : VotingState) (title descr : String) : CallResult :=
  if s.votingOpen = true then
    if MIN_VOTING_POWER ≤ s.voterWeight env.msgSender then
      Except.ok
        ({ s with
            proposalCount := s.proposalCount + 1,
            proposals := upd s.proposals (s.proposalCount + 1)
              ({ s.proposals (s.proposalCount + 1) with
                  id := s.proposalCount + 1,
                  title := title,
                  description := descr,
                  creator := env.msgSender,
                  createdAt := env.blockTimestamp,
                  votingEnd := env.blockTimestamp + VOTING_DURATION,
                  active := true,
                  encryptedYesCount := 0,
                  encryptedNoCount := 0 }) },
         [Event.ProposalCreated (s.proposalCount + 1) title env.msgSender
            (env.blockTimestamp + VOTING_DURATION)])
    else Except.error "Insufficient voting power"
  else Except.error "Voting system is closed"

/-- Function `commitVote`.  Guards in source order: `votingIsOpen`
modifier, voter weight positive, proposal exists, proposal active,
timestamp strictly before `votingEnd`, and no commitment hash stored yet
(`voteHash == bytes32(0)`).  On success only the caller's `voteHash` slot
is written. -/
def commitVote (env : Env) (s : VotingState) (proposalId voteHash : Nat) : CallResult :=
  if s.votingOpen = true then
    if 0 < s.voterWeight env.msgSender then
      if proposalId ≤ s.proposalCount ∧ 0 < proposalId then
        if (s.proposals proposalId).active = true then
          if env.blockTimestamp < (s.proposals proposalId).votingEnd then
            if (s.voteCommitments proposalId env.msgSender).voteHash = 0 then
              Except.ok
                ({ s with
                    voteCommitments := upd2 s.voteCommitments proposalId env.msgSender
                      ({ s.voteCommitments proposalId env.msgSender with voteHash := voteHash }) },
                 [Event.VoteCommitted proposalId env.msgSender voteHash])
            else Except.error "Vote already committed"
          else Except.error "Voting period ended"
        else Except.error "Proposal not active"
      else Except.error "Proposal does not exist"
    else Except.error "No voting permission"
  else Except.error "Voting system is closed"

/-- Function `revealVote`.  Guards in source order: proposal exists,
timestamp at or after `votingEnd`, commitment present, not yet revealed,
and the recomputed hash equals the stored commitment.  On success the
caller's `revealed` flag is set and the caller's full `uint256` weight is
cast to `uint32` (reduction modulo `2 ^ 32`), encrypted and added with
`FHE.add` (again modulo `2 ^ 32`) to the counter selected by `support`,
while the emitted `VoteRevealed` event carries the untruncated weight.
There is no `votingIsOpen` modifier and no check of `active` or
`executed`. -/
def revealVote (kc : Bool → Nat → Nat → Nat) (env : Env) (s : VotingState)
    (proposalId : Nat) (support : Bool) (nonce : Nat) : CallResult :=
  if proposalId ≤ s.proposalCount ∧ 0 < proposalId then
    if (s.proposals proposalId).votingEnd ≤ env.blockTimestamp then
      if (s.voteCommitments proposalId env.msgSender).voteHash ≠ 0 then
        if (s.voteCommitments proposalId env.msgSender).revealed = false then
          if kc support nonce env.msgSender
              = (s.voteCommitments proposalId env.msgSender).voteHash then
            Except.ok
              ({ s with
                  proposals := upd s.proposals proposalId
                    (if support then
                      { s.proposals proposalId with
                          encryptedYesCount :=
                            ((s.proposals proposalId).encryptedYesCount
                              + s.voterWeight env.msgSender % UINT32_MOD) % UINT32_MOD }
                     else
                      { s.proposals proposalId with
                          encryptedNoCount :=
                            ((s.proposals proposalId).encryptedNoCount
                              + s.voterWeight env.msgSender % UINT32_MOD) % UINT32_MOD }),
                  voteCommitments := upd2 s.voteCommitments proposalId env.msgSender
                    ({ s.voteCommitments proposalId env.msgSender with revealed := true }) },
               [Event.VoteRevealed proposalId env.msgSender support
                  (s.voterWeight env.msgSender)])
          else Except.error "Vote verification failed"
        else Except.error "Vote already revealed"
      else Except.error "No vote commitment found"
    else Except.error "Voting period not ended"
  else Except.error "Proposal does not exist"

/-- Function `executeProposal`.  Guards in source order: proposal exists,
timestamp at or after `votingEnd + 1 days`, not yet executed, active.  On
success only the `executed` flag is set, and `ProposalExecuted` is emitted
with the literal `true` as its `passed` argument. -/
def executeProposal (env : Env) (s : VotingState) (proposalId : Nat) : CallResult :=
  if proposalId ≤ s.proposalCount ∧ 0 < proposalId then
    if (s.proposals proposalId).votingEnd + ONE_DAY ≤ env.blockTimestamp then
      if (s.proposals proposalId).executed = false then
        if (s.proposals proposalId).active = true then
          Except.ok
            ({ s with
                proposals := upd s.proposals proposalId
                  ({ s.proposals proposalId with executed := true }) },
             [Event.ProposalExecuted proposalId true env.blockTimestamp])
        else Except.error "Proposal not active"
      else Except.error "Proposal already executed"
    else Except.error "Reveal period not ended"
  else Except.error "Proposal does not exist"

/-- Auxiliary fact for proofs: a call is not a revert exactly when it
returns `Except.ok`. -/
theorem isRevert_false_iff (r : CallResult) :
    isRevert r = false ↔ ∃ out, r = Except.ok out := by
  cases r with
  | error m => simp [isRevert]
  | ok out => simp [isRevert]

/-- Inversion of a successful `commitVote`: the exact result and every
guard that must have held. -/
theorem commitVote_ok_inv (env : Env) (s : VotingState) (pid vh : Nat)
    (out : VotingState × List Event)
    (hcall : commitVote env s pid vh = Except.ok out) :
    out =
      ({ s with
          voteCommitments := upd2 s.voteCommitments pid env.msgSender
            ({ s.voteCommitments pid env.msgSender with voteHash := vh }) },
       [Event.VoteCommitted pid env.msgSender vh]) ∧
    s.votingOpen = true ∧
    0 < s.voterWeight env.msgSender ∧
    (pid ≤ s.proposalCount ∧ 0 < pid) ∧
    (s.proposals pid).active = true ∧
    env.blockTimestamp < (s.proposals pid).votingEnd ∧
    (s.voteCommitments pid env.msgSender).voteHash = 0 := by
  unfold commitVote at hcall
  split at hcall
  · split at hcall
    · split at hcall
      · split at hcall
        · split at hcall
          · split at hcall
            · rename_i h1 h2 h3 h4 h5 h6
              injection hcall with hout
              exact ⟨hout.symm, h1, h2, h3, h4, h5, h6⟩
            · exact Except.noConfusion hcall
          · exact Except.noConfusion hcall
        · exact Except.noConfusion hcall
      · exact Except.noConfusion hcall
    · exact Except.noConfusion hcall
  · exact Except.noConfusion hcall

/-- Inversion of a successful `revealVote`: the exact result and every
guard that must have held. -/
theorem revealVote_ok_inv (kc : Bool → Nat → Nat → Nat) (env : Env) (s : VotingState)
    (pid nonce : Nat) (support : Bool) (out : VotingState × List Event)
    (hcall : revealVote kc env s pid support nonce = Except.ok out) :
    out =
      ({ s with
          proposals := upd s.proposals pid
            (if support then
              { s.proposals pid with
                  encryptedYesCount :=
                    ((s.proposals pid).encryptedYesCount
                      + s.voterWeight env.msgSender % UINT32_MOD) % UINT32_MOD }
             else
              { s.proposals pid with
                  encryptedNoCount :=
                    ((s.proposals pid).encryptedNoCount
                      + s.voterWeight env.msgSender % UINT32_MOD) % UINT32_MOD }),
          voteCommitments := upd2 s.voteCommitments pid env.msgSender
            ({ s.voteCommitments pid env.msgSender with revealed := true }) },
       [Event.VoteRevealed pid env.msgSender support (s.voterWeight env.msgSender)]) ∧
    (pid ≤ s.proposalCount ∧ 0 < pid) ∧
    (s.proposals pid).votingEnd ≤ env.blockTimestamp ∧
    (s.voteCommitments pid env.msgSender).voteHash ≠ 0 ∧
    (s.voteCommitments pid env.msgSender).revealed = false ∧
    kc support nonce env.msgSender = (s.voteCommitments pid env.msgSender).voteHash := by
  unfold revealVote at hcall
  split at hcall
  · split at hcall
    · split at hcall
      · split at hcall
        · split at hcall
          · rename_i h1 h2 h3 h4 h5
            injection hcall with hout
            exact ⟨hout.symm, h1, h2, h3, h4, h5⟩
          · exact Except.noConfusion hcall
        · exact Except.noConfusion hcall
      · exact Except.noConfusion hcall
    · exact Except.noConfusion hcall
  · exact Except.noConfusion hcall

/-- Inversion of a successful `executeProposal`: the exact result and every
guard that must have held. -/
theorem executeProposal_ok_inv (env : Env) (s : VotingState) (pid : Nat)
    (out : VotingState × List Event)
    (hcall : executeProposal env s pid = Except.ok out) :
    out =
      ({ s with
          proposals := upd s.proposals pid
            ({ s.proposals pid with executed := true }) },
       [Event.ProposalExecuted pid true env.blockTimestamp]) ∧
    (pid ≤ s.proposalCount ∧ 0 < pid) ∧
    (s.proposals pid).votingEnd + ONE_DAY ≤ env.blockTimestamp ∧
    (s.proposals pid).executed = false ∧
    (s.proposals pid).active = true := by
  unfold executeProposal at hcall
  split at hcall
  · split at hcall
    · split at hcall
      · split at hcall
        · rename_i h1 h2 h3 h4
          injection hcall with hout
          exact ⟨hout.symm, h1, h2, h3, h4⟩
        · exact Except.noConfusion hcall
      · exact Except.noConfusion hcall
    · exact Except.noConfusion hcall
  · exact Except.noConfusion hcall

/-- Inversion of a successful `createProposal`: the exact result and every
guard that must have held. -/
theorem createProposal_ok_inv (env : Env) (s : VotingState) (title descr : String)
    (out : VotingState × List Event)
    (hcall : createProposal env s title descr = Except.ok out) :
    out =
      ({ s with
          proposalCount := s.proposalCount + 1,
          proposals := upd s.proposals (s.proposalCount + 1)
            ({ s.proposals (s.proposalCount + 1) with
                id := s.proposalCount + 1,
                title := title,
                description := descr,
                creator := env.msgSender,
                createdAt := env.blockTimestamp,
                votingEnd := env.blockTimestamp + VOTING_DURATION,
                active := true,
                encryptedYesCount := 0,
                encryptedNoCount := 0 }) },
       [Event.ProposalCreated (s.proposalCount + 1) title env.msgSender
          (env.blockTimestamp + VOTING_DURATION)]) ∧
    s.votingOpen = true ∧
    MIN_VOTING_POWER ≤ s.voterWeight env.msgSender := by
  unfold createProposal at hcall
  split at hcall
  · split at hcall
    · rename_i h1 h2
      injection hcall with hout
      exact ⟨hout.symm, h1, h2⟩
    · exact Except.noConfusion hcall
  · exact Except.noConfusion hcall

/-- Concrete stand-in for the keccak hash function, used only to
instantiate witnesses (`kc0 true 5 5 = 5016`). -/
def kc0 : Bool → Nat → Nat → Nat :=
  fun support nonce sender => (if support then 1 else 2) + 3 * nonce + 1000 * sender

/-- Zero value of the `Proposal` storage struct (an untouched mapping slot). -/
def emptyProposal : Proposal :=
  { id := 0, title := "", description := "", creator := 0, createdAt := 0,
    votingEnd := 0, encryptedYesCount := 0, encryptedNoCount := 0,
    executed := false, active := false }

/-- Zero value of the `VoteCommitment` storage struct. -/
def emptyCommitment : VoteCommitment := { voteHash := 0, revealed := false }

/-- Sample active, not yet executed proposal with `votingEnd = 1000`. -/
def sampleProposal : Proposal :=
  { emptyProposal with
      id := 1,
      creator := 9,
      createdAt := 100,
      votingEnd := 1000,
      active := true }

/-- Sample storage: one active proposal, voter `5` with weight `200`, no
commitments stored yet. -/
def stCommit : VotingState :=
  { proposals := fun i => if i = 1 then sampleProposal else emptyProposal,
    voteCommitments := fun _ _ => emptyCommitment,
    voterWeight := fun a => if a = 5 then 200 else 0,
    proposalCount := 1, owner := 9, votingOpen := true }

/-- Call context inside the commit window of `stCommit` (t = 500 < 1000). -/
def envCommit : Env := { msgSender := 5, blockTimestamp := 500 }

/-- Call context inside the reveal window of `stCommit` (t = 2000 ≥ 1000). -/
def envReveal : Env := { msgSender := 5, blockTimestamp := 2000 }

/-- Call context before the execution buffer has elapsed (t = 5000 <
1000 + 86400). -/
def envEarly : Env := { msgSender := 7, blockTimestamp := 5000 }

/-- Call context at the execution threshold of `stCommit`
(t = 1000 + 86400). -/
def envExec : Env := { msgSender := 7, blockTimestamp := 87400 }

/-- Like `stCommit`, but voter `5` has committed the hash `7777` on
proposal `1`. -/
def stReveal : VotingState :=
  { proposals := fun i => if i = 1 then sampleProposal else emptyProposal,
    voteCommitments := fun i a =>
      if i = 1 ∧ a = 5 then { voteHash := 7777, revealed := false } else emptyCommitment,
    voterWeight := fun a => if a = 5 then 200 else 0,
    proposalCount := 1, owner := 9, votingOpen := true }

/-- Storage in which the voting system is closed, proposal `1` is paused
and already executed, and voter `5` holds the unrevealed commitment
`kc0 true 5 5 = 5016`: exercises that `revealVote` ignores all three
flags. -/
def stRevealOk : VotingState :=
  { proposals := fun i =>
      if i = 1 then { sampleProposal with active := false, executed := true }
      else emptyProposal,
    voteCommitments := fun i a =>
      if i = 1 ∧ a = 5 then { voteHash := 5016, revealed := false } else emptyCommitment,
    voterWeight := fun a => if a = 5 then 200 else 0,
    proposalCount := 1, owner := 9, votingOpen := false }

/-- Like `stReveal`, but voter `5` has the commitment `kc0 true 5 5` and an
oversized weight `2 ^ 32 + 5`, whose `uint32` cast truncates to `5`. -/
def stBig : VotingState :=
  { proposals := fun i => if i = 1 then sampleProposal else emptyProposal,
    voteCommitments := fun i a =>
      if i = 1 ∧ a = 5 then { voteHash := 5016, revealed := false } else emptyCommitment,
    voterWeight := fun a => if a = 5 then 2 ^ 32 + 5 else 0,
    proposalCount := 1, owner := 9, votingOpen := true }

/-- C1: `revealVote(proposalId, support, nonce)` succeeds only if
`keccak256(abi.encodePacked(support, nonce, msg.sender))` equals the
commitment hash previously stored for the caller on that proposal, and if
the recomputed hash differs from the stored commitment the call reverts —
an `Except.error` result, which by construction of the model carries no
state change.  Proved for every model `kc` of the keccak hash. -/
theorem revealVote_requires_matching_hash
    (kc : Bool → Nat → Nat → Nat) (env : Env) (s : VotingState)
    (pid nonce : Nat) (support : Bool) :
    (isRevert (revealVote kc env s pid support nonce) = false →
      kc support nonce env.msgSender = (s.voteCommitments pid env.msgSender).voteHash) ∧
    (kc support nonce env.msgSender ≠ (s.voteCommitments pid env.msgSender).voteHash →
      isRevert (revealVote kc env s pid support nonce) = true) := by
  constructor
  · intro hok
    obtain ⟨out, hcall⟩ := (isRevert_false_iff _).mp hok
    exact (revealVote_ok_inv kc env s pid nonce support out hcall).2.2.2.2.2
  · intro hne
    cases hrev : isRevert (revealVote kc env s pid support nonce) with
    | true => rfl
    | false =>
      obtain ⟨out, hcall⟩ := (isRevert_false_iff _).mp hrev
      exact absurd (revealVote_ok_inv kc env s pid nonce support out hcall).2.2.2.2.2 hne

/-- C1 witness: with the stored commitment `7777` and the recomputed hash
`kc0 true 5 5 = 5016`, the reveal reverts. -/
theorem revealVote_requires_matching_hash_witness :
    kc0 true 5 5 ≠ (stReveal.voteCommitments 1 5).voteHash ∧
    isRevert (revealVote kc0 envReveal stReveal 1 true 5) = true :=
  ⟨by decide,
   (revealVote_requires_matching_hash kc0 envReveal stReveal 1 5 true).2 (by decide)⟩

/-- C2 counterexample: `commitVote` only guards on the stored hash being
`bytes32(0)`, so after a successful `commitVote` with `voteHash = 0` a
second `commitVote` by the same address on the same proposal succeeds —
the claim's "for every value of the committed hash" fails at hash `0`. -/
theorem commitVote_zero_hash_recommit :
    isRevert (commitVote envCommit stCommit 1 0) = false ∧
    isRevert
      (commitVote envCommit (resultState (commitVote envCommit stCommit 1 0) stCommit) 1 42)
      = false := by
  exact ⟨rfl, rfl⟩

/-- C2 (amended): after a successful `commitVote` with a nonzero committed
hash, every second `commitVote` by the same address on the same proposal
reverts, so the stored commitment is never overwritten. -/
theorem commitVote_no_second_commit
    (env env2 : Env) (s : VotingState) (pid vh vh2 : Nat)
    (hne : vh ≠ 0)
    (hok : isRevert (commitVote env s pid vh) = false)
    (hsender : env2.msgSender = env.msgSender) :
    isRevert (commitVote env2 (resultState (commitVote env s pid vh) s) pid vh2) = true := by
  obtain ⟨out, hcall⟩ := (isRevert_false_iff _).mp hok
  obtain ⟨hout, -, -, -, -, -, -⟩ := commitVote_ok_inv env s pid vh out hcall
  rw [hcall, hout]
  simp only [resultState]
  unfold commitVote
  split
  · split
    · split
      · split
        · split
          · split
            · rename_i hzero
              rw [hsender] at hzero
              simp [upd2_same] at hzero
              exact absurd hzero hne
            · rfl
          · rfl
        · rfl
      · rfl
    · rfl
  · rfl

/-- C2 witness for the amended statement: after committing the hash `7`,
a recommit with hash `42` reverts. -/
theorem commitVote_no_second_commit_witness :
    isRevert
      (commitVote envCommit (resultState (commitVote envCommit stCommit 1 7) stCommit) 1 42)
      = true :=
  commitVote_no_second_commit envCommit envCommit stCommit 1 7 42 (by decide) (by decide) rfl

/-- C3: for an existing proposal, `executeProposal` reverts whenever
`block.timestamp < votingEnd + 1 days`; a not-yet-executed, active
proposal executes successfully once `block.timestamp ≥ votingEnd +
1 days`; and after a successful execution a second `executeProposal` on
the same proposal reverts (at any later call context). -/
theorem executeProposal_timing
    (env env2 : Env) (s : VotingState) (pid : Nat) :
    ((pid ≤ s.proposalCount ∧ 0 < pid) →
      env.blockTimestamp < (s.proposals pid).votingEnd + ONE_DAY →
      isRevert (executeProposal env s pid) = true) ∧
    ((pid ≤ s.proposalCount ∧ 0 < pid) →
      (s.proposals pid).executed = false →
      (s.proposals pid).active = true →
      (s.proposals pid).votingEnd + ONE_DAY ≤ env.blockTimestamp →
      isRevert (executeProposal env s pid) = false) ∧
    (isRevert (executeProposal env s pid) = false →
      isRevert (executeProposal env2 (resultState (executeProposal env s pid) s) pid) = true) := by
  refine ⟨?_, ?_, ?_⟩
  · intro hex ht
    cases hrev : isRevert (executeProposal env s pid) with
    | true => rfl
    | false =>
      obtain ⟨out, hcall⟩ := (isRevert_false_iff _).mp hrev
      have h := (executeProposal_ok_inv env s pid out hcall).2.2.1
      omega
  · intro hex hexec hact ht
    unfold executeProposal
    rw [if_pos hex, if_pos ht, if_pos hexec, if_pos hact]
    rfl
  · intro hok
    obtain ⟨out, hcall⟩ := (isRevert_false_iff _).mp hok
    obtain ⟨hout, -, -, -, -⟩ := executeProposal_ok_inv env s pid out hcall
    rw [hcall, hout]
    simp only [resultState]
    unfold executeProposal
    split
    · split
      · split
        · rename_i hexec2
          simp [upd_same] at hexec2
        · rfl
      · rfl
    · rfl

/-- C3 witness: on the sample proposal (votingEnd 1000) execution reverts
at t = 5000, succeeds at t = 87400 = 1000 + 86400, and a repeated
execution reverts. -/
theorem executeProposal_timing_witness :
    isRevert (executeProposal envEarly stCommit 1) = true ∧
    isRevert (executeProposal envExec stCommit 1) = false ∧
    isRevert
      (executeProposal envExec (resultState (executeProposal envExec stCommit 1) stCommit) 1)
      = true := by
  refine ⟨?_, ?_, ?_⟩
  · exact (executeProposal_timing envEarly envEarly stCommit 1).1 (by decide) (by decide)
  · exact (executeProposal_timing envExec envExec stCommit 1).2.1
      (by decide) (by decide) (by decide) (by decide)
  · exact (executeProposal_timing envExec envExec stCommit 1).2.2
      ((executeProposal_timing envExec envExec stCommit 1).2.1
        (by decide) (by decide) (by decide) (by decide))

/-- C4: `revealVote` succeeds exactly when the proposal exists, the voting
period has ended, the caller holds an unrevealed commitment, and the
recomputed hash matches — equivalently it reverts if and only if one of
those conditions fails.  The right-hand side mentions neither
`votingOpen` nor the proposal's `active` or `executed` flags, so a reveal
also succeeds when the voting system is closed, the proposal is paused, or
the proposal has been executed, and it has no upper time bound. -/
theorem revealVote_success_iff
    (kc : Bool → Nat → Nat → Nat) (env : Env) (s : VotingState)
    (pid nonce : Nat) (support : Bool) :
    isRevert (revealVote kc env s pid support nonce) = false ↔
      ((pid ≤ s.proposalCount ∧ 0 < pid) ∧
       (s.proposals pid).votingEnd ≤ env.blockTimestamp ∧
       (s.voteCommitments pid env.msgSender).voteHash ≠ 0 ∧
       (s.voteCommitments pid env.msgSender).revealed = false ∧
       kc support nonce env.msgSender = (s.voteCommitments pid env.msgSender).voteHash) := by
  constructor
  · intro hok
    obtain ⟨out, hcall⟩ := (isRevert_false_iff _).mp hok
    obtain ⟨-, h1, h2, h3, h4, h5⟩ := revealVote_ok_inv kc env s pid nonce support out hcall
    exact ⟨h1, h2, h3, h4, h5⟩
  · rintro ⟨h1, h2, h3, h4, h5⟩
    unfold revealVote
    rw [if_pos h1, if_pos h2, if_pos h3, if_pos h4, if_pos h5]
    rfl

/-- C4 witness: in `stRevealOk` the voting system is closed, proposal `1`
is paused and already executed, yet the reveal succeeds. -/
theorem revealVote_success_iff_witness :
    isRevert (revealVote kc0 envReveal stRevealOk 1 true 5) = false ∧
    stRevealOk.votingOpen = false ∧
    (stRevealOk.proposals 1).active = false ∧
    (stRevealOk.proposals 1).executed = true :=
  ⟨(revealVote_success_iff kc0 envReveal stRevealOk 1 5 true).mpr (by decide), rfl, rfl, rfl⟩

/-- C5: the commit and reveal windows of a proposal are disjoint and
ordered — a successful commit needs `t < votingEnd`, a successful reveal
needs `votingEnd ≤ t`, so at no timestamp can the same proposal accept
both; a successful execution needs the further one-day buffer
`votingEnd + 1 days ≤ t`; and a proposal created by `createProposal` has
`votingEnd = createdAt + 7 days`. -/
theorem voting_phases_ordered
    (kc : Bool → Nat → Nat → Nat) (env1 env2 : Env) (s : VotingState)
    (pid vh nonce : Nat) (support : Bool) (title descr : String) :
    (env1.blockTimestamp = env2.blockTimestamp →
      ¬(isRevert (commitVote env1 s pid vh) = false ∧
        isRevert (revealVote kc env2 s pid support nonce) = false)) ∧
    (isRevert (commitVote env1 s pid vh) = false →
      env1.blockTimestamp < (s.proposals pid).votingEnd) ∧
    (isRevert (revealVote kc env2 s pid support nonce) = false →
      (s.proposals pid).votingEnd ≤ env2.blockTimestamp) ∧
    (isRevert (executeProposal env1 s pid) = false →
      (s.proposals pid).votingEnd + ONE_DAY ≤ env1.blockTimestamp) ∧
    (isRevert (createProposal env1 s title descr) = false →
      ((resultState (createProposal env1 s title descr) s).proposals (s.proposalCount + 1)).votingEnd =
        ((resultState (createProposal env1 s title descr) s).proposals (s.proposalCount + 1)).createdAt
          + VOTING_DURATION) := by
  have hcommit : isRevert (commitVote env1 s pid vh) = false →
      env1.blockTimestamp < (s.proposals pid).votingEnd := by
    intro hok
    obtain ⟨out, hcall⟩ := (isRevert_false_iff _).mp hok
    exact (commitVote_ok_inv env1 s pid vh out hcall).2.2.2.2.2.1
  have hreveal : isRevert (revealVote kc env2 s pid support nonce) = false →
      (s.proposals pid).votingEnd ≤ env2.blockTimestamp := by
    intro hok
    obtain ⟨out, hcall⟩ := (isRevert_false_iff _).mp hok
    exact (revealVote_ok_inv kc env2 s pid nonce support out hcall).2.2.1
  refine ⟨?_, hcommit, hreveal, ?_, ?_⟩
  · rintro hts ⟨hc, hr⟩
    have h1 := hcommit hc
    have h2 := hreveal hr
    omega
  · intro hok
    obtain ⟨out, hcall⟩ := (isRevert_false_iff _).mp hok
    exact (executeProposal_ok_inv env1 s pid out hcall).2.2.1
  · intro hok
    obtain ⟨out, hcall⟩ := (isRevert_false_iff _).mp hok
    obtain ⟨hout, -, -⟩ := createProposal_ok_inv env1 s title descr out hcall
    rw [hcall, hout]
    simp [resultState, upd_same]

/-- C5 witness: in `stCommit` at t = 500 a commit succeeds, so 500 < 1000,
and the proposal created at t = 500 has `votingEnd = createdAt +
604800`. -/
theorem voting_phases_ordered_witness :
    envCommit.blockTimestamp < (stCommit.proposals 1).votingEnd ∧
    ((resultState (createProposal envCommit stCommit ("T") ("D")) stCommit).proposals 2).votingEnd =
      ((resultState (createProposal envCommit stCommit ("T") ("D")) stCommit).proposals 2).createdAt
        + VOTING_DURATION := by
  constructor
  · exact (voting_phases_ordered kc0 envCommit envCommit stCommit 1 7 5 true ("T") ("D")).2.1
      (by decide)
  · exact (voting_phases_ordered kc0 envCommit envCommit stCommit 1 7 5 true ("T") ("D")).2.2.2.2
      (by decide)

/-- C9: a successful `executeProposal` changes the storage exactly by
setting the proposal's `executed` flag to `true`, and emits
`ProposalExecuted` with `passed = true` unconditionally — the result holds
for every storage, whatever the encrypted counters or revealed votes are,
so the reported outcome does not depend on them. -/
theorem executeProposal_state_and_event
    (env : Env) (s : VotingState) (pid : Nat)
    (hok : isRevert (executeProposal env s pid) = false) :
    resultState (executeProposal env s pid) s =
      { s with proposals := upd s.proposals pid ({ s.proposals pid with executed := true }) } ∧
    resultEvents (executeProposal env s pid) =
      [Event.ProposalExecuted pid true env.blockTimestamp] := by
  obtain ⟨out, hcall⟩ := (isRevert_false_iff _).mp hok
  obtain ⟨hout, -, -, -, -⟩ := executeProposal_ok_inv env s pid out hcall
  rw [hcall, hout]
  exact ⟨rfl, rfl⟩

/-- C9 witness: execution of the sample proposal at t = 87400 sets only
its `executed` flag and reports `passed = true`. -/
theorem executeProposal_state_and_event_witness :
    resultState (executeProposal envExec stCommit 1) stCommit =
      { stCommit with
          proposals := upd stCommit.proposals 1 ({ stCommit.proposals 1 with executed := true }) } ∧
    resultEvents (executeProposal envExec stCommit 1) =
      [Event.ProposalExecuted 1 true 87400] := by
  have h := executeProposal_state_and_event envExec stCommit 1 (by decide)
  exact ⟨h.1, h.2⟩

/-- C10: a successful `revealVote` adds `weight % 2 ^ 32` — the `uint32`
truncation of the voter's stored `uint256` weight — to the chosen
encrypted counter (arithmetic modulo `2 ^ 32`), while the `VoteRevealed`
event reports the full untruncated weight; the truncated and full values
agree exactly when `weight < 2 ^ 32`. -/
theorem revealVote_weight_truncation
    (kc : Bool → Nat → Nat → Nat) (env : Env) (s : VotingState)
    (pid nonce : Nat) (support : Bool)
    (hok : isRevert (revealVote kc env s pid support nonce) = false) :
    ((resultState (revealVote kc env s pid support nonce) s).proposals pid).encryptedYesCount =
      (if support then
        ((s.proposals pid).encryptedYesCount + s.voterWeight env.msgSender % UINT32_MOD) % UINT32_MOD
       else (s.proposals pid).encryptedYesCount) ∧
    ((resultState (revealVote kc env s pid support nonce) s).proposals pid).encryptedNoCount =
      (if support then (s.proposals pid).encryptedNoCount
       else
        ((s.proposals pid).encryptedNoCount + s.voterWeight env.msgSender % UINT32_MOD) % UINT32_MOD) ∧
    resultEvents (revealVote kc env s pid support nonce) =
      [Event.VoteRevealed pid env.msgSender support (s.voterWeight env.msgSender)] ∧
    (s.voterWeight env.msgSender % UINT32_MOD = s.voterWeight env.msgSender ↔
      s.voterWeight env.msgSender < UINT32_MOD) := by
  obtain ⟨out, hcall⟩ := (isRevert_false_iff _).mp hok
  obtain ⟨hout, -, -, -, -, -⟩ := revealVote_ok_inv kc env s pid nonce support out hcall
  rw [hcall, hout]
  refine ⟨?_, ?_, rfl, Nat.mod_eq_iff_lt (by decide)⟩
  · cases support <;> simp [resultState, upd_same]
  · cases support <;> simp [resultState, upd_same]

/-- C10 witness: with stored weight `2 ^ 32 + 5` the yes-counter receives
`5`, while the event reports the full weight `2 ^ 32 + 5`, and the two
values differ. -/
theorem revealVote_weight_truncation_witness :
    ((resultState (revealVote kc0 envReveal stBig 1 true 5) stBig).proposals 1).encryptedYesCount
      = 5 ∧
    resultEvents (revealVote kc0 envReveal stBig 1 true 5) =
      [Event.VoteRevealed 1 5 true (2 ^ 32 + 5)] ∧
    ¬((2 ^ 32 + 5) % UINT32_MOD = 2 ^ 32 + 5) := by
  have h := revealVote_weight_truncation kc0 envReveal stBig 1 5 true (by decide)
  refine ⟨h.1.trans (by decide), h.2.2.1, ?_⟩
  intro hh
  exact absurd (h.2.2.2.mp hh) (by decide)

/-- Entry type of `DOCS_CONFIG` in scripts/generate-docs.ts. -/
structure DocConfig where
  name : String
  description : String
  contractFile : String
  testFile : String
  category : String

/-- The single entry of `DOCS_CONFIG`. -/
def docsVotingConfig : DocConfig :=
  { name := "FHEVM Voting System",
    description := "Privacy-preserving voting using Fully Homomorphic Encryption",
    contractFile := "base-template/contracts/FHEMVoting.sol",
    testFile := "base-template/test/FHEMVoting.ts",
    category := "Advanced Examples" }

/-- Static registry `DOCS_CONFIG` of scripts/generate-docs.ts, as an
association list in source order. -/
def DOCS_CONFIG : List (String × DocConfig) :=
  [("fhevm-voting", docsVotingConfig)]

/-- Entry type of `EXAMPLES_MAP` in scripts/create-fhevm-example.ts. -/
structure ExampleConfig where
  contract : String
  test : String
  description : String

/-- Entry `fhe-counter` of `EXAMPLES_MAP`. -/
def exCounterConfig : ExampleConfig :=
  { contract := "contracts/basic/FHECounter.sol",
    test := "test/basic/FHECounter.ts",
    description :=
      "Basic encrypted counter demonstrating FHE operations, permissions, and arithmetic" }

/-- Entry `encrypt-single-value` of `EXAMPLES_MAP`. -/
def exSingleValueConfig : ExampleConfig :=
  { contract := "contracts/basic/EncryptSingleValue.sol",
    test := "test/basic/EncryptSingleValue.ts",
    description :=
      "Demonstrates encrypted input validation, proof verification, and common pitfalls" }

/-- Entry `fhevm-voting` of `EXAMPLES_MAP`. -/
def exVotingConfig : ExampleConfig :=
  { contract := "base-template/contracts/FHEMVoting.sol",
    test := "base-template/test/FHEMVoting.ts",
    description :=
      "Advanced voting system with commit-reveal, weighted votes, and multi-phase governance" }

/-- Static registry `EXAMPLES_MAP` of scripts/create-fhevm-example.ts, as
an association list in source order. -/
def EXAMPLES_MAP : List (String × ExampleConfig) :=
  [("fhe-counter", exCounterConfig),
   ("encrypt-single-value", exSingleValueConfig),
   ("fhevm-voting", exVotingConfig)]

/-- C6 counterexample: `fhe-counter` is a key of `EXAMPLES_MAP` but not of
`DOCS_CONFIG`, so the two registries do not have the same key set. -/
theorem registry_key_mismatch :
    (List.lookup ("fhe-counter") EXAMPLES_MAP).isSome = true ∧
    (List.lookup ("fhe-counter") DOCS_CONFIG).isSome = false := by
  exact ⟨rfl, rfl⟩

/-- C6 (amended): every key of `DOCS_CONFIG` is a key of `EXAMPLES_MAP`
(the inclusion holds in this one direction only), and for every common key
the two entries carry the same contract path and the same test path. -/
theorem docs_registry_refines_examples
    (k : String) (c : DocConfig)
    (hk : List.lookup k DOCS_CONFIG = some c) :
    ∃ e, List.lookup k EXAMPLES_MAP = some e ∧
      e.contract = c.contractFile ∧ e.test = c.testFile := by
  simp only [DOCS_CONFIG, List.lookup] at hk
  split at hk
  · rename_i hbeq
    have hkey : k = "fhevm-voting" := eq_of_beq hbeq
    subst hkey
    injection hk with hc
    subst hc
    exact ⟨exVotingConfig, rfl, rfl, rfl⟩
  · exact Option.noConfusion hk

/-- C6 witness for the amended statement, at the common key
`fhevm-voting`. -/
theorem docs_registry_refines_examples_witness :
    ∃ e, List.lookup ("fhevm-voting") EXAMPLES_MAP = some e ∧
      e.contract = docsVotingConfig.contractFile ∧ e.test = docsVotingConfig.testFile :=
  docs_registry_refines_examples ("fhevm-voting") docsVotingConfig rfl

/-- Function `generateSummary` of scripts/generate-docs.ts: the fixed
header, one table-of-contents line per requested example that is a key of
`DOCS_CONFIG`, and the fixed quick-links footer. -/
def generateSummary (examples : List String) : String :=
  (examples.foldl
    (fun acc ex =>
      match List.lookup ex DOCS_CONFIG with
      | some c => acc ++ "- [" ++ c.name ++ "](" ++ ex ++ ".md)\n"
      | none => acc)
    ("# FHEVM Voting Examples Documentation\n\n## Introduction\n\nThis documentation covers FHEVM voting examples demonstrating privacy-preserving governance.\n\n## Table of Contents\n\n"))
  ++ "\n## Quick Links\n\n- [FHEVM Documentation](https://docs.zama.ai/fhevm)\n- [GitHub Repository](https://github.com/zama-ai/fhevm-secure-voting)\n- [Zama Community](https://www.zama.ai/community)\n"

/-- Main argument-dispatch of scripts/generate-docs.ts, modelled as a
function from the argument list to the process exit code and the list of
(path, contents) pairs written under `examples/`.  `--help`/`-h` and
`--list`/`-l` print and exit 0; `--all` generates a page per registry key
plus `SUMMARY.md`; otherwise the first argument must be a key of
`DOCS_CONFIG` (unknown name or no argument: exit 1 with nothing written);
a single named example generates exactly its own page (the `SUMMARY.md`
branch also requires `--all` or more than one selected example).  The
`mkdirSync` of the `examples` directory writes no file.  The page contents
function is a parameter `genDoc`: the source body of
`generateDocumentation` has no defined semantics to translate, because its
line 271 contains an unterminated string literal (see
`generateDocsLine271`); no claim settled here depends on the page text. -/
def generateDocsMain (genDoc : String → DocConfig → String)
    (args : List String) : Nat × List (String × String) :=
  if "--help" ∈ args ∨ "-h" ∈ args then (0, [])
  else if "--list" ∈ args ∨ "-l" ∈ args then (0, [])
  else if "--all" ∈ args then
    (0, (DOCS_CONFIG.map Prod.fst).filterMap
          (fun n => (List.lookup n DOCS_CONFIG).map
            (fun c => ("examples/" ++ n ++ ".md", genDoc n c)))
        ++ [("examples/SUMMARY.md", generateSummary (DOCS_CONFIG.map Prod.fst))])
  else
    match args with
    | [] => (1, [])
    | n :: _ =>
      match List.lookup n DOCS_CONFIG with
      | none => (1, [])
      | some c => (0, [("examples/" ++ n ++ ".md", genDoc n c)])

/-- C7: for every argument string that is neither a key of `DOCS_CONFIG`
nor one of the recognized flags, running generate-docs with that single
argument exits with code 1 and writes no file at all — in particular no
`examples/<name>.md` and no `examples/SUMMARY.md`.  Proved for every page
contents function. -/
theorem generateDocs_unknown_name_exits_one
    (genDoc : String → DocConfig → String) (arg : String)
    (hkey : List.lookup arg DOCS_CONFIG = none)
    (h1 : arg ≠ "--help") (h2 : arg ≠ "-h") (h3 : arg ≠ "--list") (h4 : arg ≠ "-l")
    (h5 : arg ≠ "--all") :
    generateDocsMain genDoc [arg] = (1, []) := by
  unfold generateDocsMain
  have c1 : ¬("--help" ∈ [arg] ∨ "-h" ∈ [arg]) := by
    rintro (hh | hh) <;> simp_all [List.mem_singleton]
  have c2 : ¬("--list" ∈ [arg] ∨ "-l" ∈ [arg]) := by
    rintro (hh | hh) <;> simp_all [List.mem_singleton]
  have c3 : ¬("--all" ∈ [arg]) := by
    intro hh
    simp_all [List.mem_singleton]
  rw [if_neg c1, if_neg c2, if_neg c3]
  simp [hkey]

/-- C7 witness: the unknown name `bogus` exits 1 without writing. -/
theorem generateDocs_unknown_name_exits_one_witness :
    generateDocsMain (fun _ _ => "") (["bogus"]) = (1, []) :=
  generateDocs_unknown_name_exits_one (fun _ _ => "") ("bogus") rfl
    (by decide) (by decide) (by decide) (by decide) (by decide)

/-- Verbatim text of line 271 of scripts/generate-docs.ts (the characters
`\n\n` are the two-character escape sequences of the source line itself).
The line opens a double-quoted string literal and ends it with a backtick
instead of a double quote. -/
def generateDocsLine271 : String :=
  "  doc += \"- FHE.eq for equality comparisons\\n\\n`;"

/-- Number of double-quote characters in a string. -/
def doubleQuoteCount (s : String) : Nat :=
  s.toList.countP (fun c => c = '"')

/-- C8: line 271 of scripts/generate-docs.ts contains exactly one
double-quote character.  A JavaScript/TypeScript double-quoted string
literal must open and close on one line, so the literal opened on this
line is unterminated: the script fails to parse and `generateDocumentation`
can never run, let alone return a Markdown string. -/
theorem generateDocsLine271_unterminated :
    doubleQuoteCount generateDocsLine271 = 1 := by decide
